import Mathlib

/-!
Shallow embedding of the core of the ClaudeCode-Copilot-Proxy repository:
the token store and device-flow authenticator (src/services/auth-service.ts),
the protocol translator (src/services/anthropic-service.ts, inlined in the
sources), the model mapper (src/utils/model-mapper.ts with the mapping table
from src/config/index.ts), and the Anthropic `/v1/messages` route with its
simulated-streaming handler (src/routes/anthropic.ts).

JavaScript strings are modelled as lists of characters, JavaScript epoch
seconds as integers, and the few dynamically-typed JSON fields as small sum
types.  Every asynchronous collaborator (the OAuth provider exchange, the
Copilot token-exchange call, the backend chat call) is passed in as an
explicit outcome value, so every function below is a pure function of its
inputs, mirroring the control flow of the source line by line.
-/

namespace CopilotProxy

/-- JavaScript strings, modelled as lists of characters. -/
abbrev Str := List Char

/-- JavaScript `s.includes(sub)`: `sub` occurs contiguously inside `s`. -/
def jsIncludes (s sub : Str) : Bool :=
  (List.range (s.length + 1)).any (fun i => sub.isPrefixOf (s.drop i))

/-- JavaScript `s || d` for an optional string `s`: the default `d` is used
when `s` is `undefined`/`null` or the empty (falsy) string. -/
def jsOrElse (s : Option Str) (d : Str) : Str :=
  match s with
  | none => d
  | some v => if v = [] then d else v

/-- JavaScript `String.prototype.trim`: strip whitespace from both ends. -/
def jsTrim (s : Str) : Str :=
  ((s.dropWhile Char.isWhitespace).reverse.dropWhile Char.isWhitespace).reverse

/-! ### Token store (src/services/auth-service.ts) -/

/-- The `CopilotToken` record of src/types/github.ts: the short-lived
service credential obtained from the token-exchange endpoint. -/
structure CopilotTokenE where
  token : Str
  expires_at : Int
  refresh_in : Int
  chat_enabled : Bool
  sku : Str
  telemetry : Str
  tracking_id : Str
deriving DecidableEq

/-- The `isTokenValid` check of src/services/auth-service.ts (lines 291-299).
The in-memory slot `copilotToken` and the clock reading
`Math.floor(Date.now() / 1000)` are passed explicitly.  The source returns
`false` when `!copilotToken || !copilotToken.token` (so also when the token
string is empty, which is falsy in JavaScript), and otherwise compares
`now < copilotToken.expires_at - 5` (the 5-second safety margin). -/
def isTokenValid (copilotToken : Option CopilotTokenE) (now : Int) : Bool :=
  match copilotToken with
  | none => false
  | some t => if t.token = [] then false else decide (now < t.expires_at - 5)

/-! ### Device-flow authenticator (src/services/auth-service.ts) -/

/-- The `VerificationResponse` record of src/types/github.ts, stored in the
module-level `pendingVerification` slot. -/
structure VerificationResponseE where
  verification_uri : Str
  user_code : Str
  expires_in : Int
  interval : Int
  status : Str
deriving DecidableEq

/-- The module-level mutable state of src/services/auth-service.ts:
`githubToken`, `copilotToken`, `pendingAuth` (the stored OAuth device-flow
exchange, modelled as an opaque numeric handle) and `pendingVerification`.
The refresh timer handle is not modelled (it carries no data). -/
structure AuthStateE where
  githubToken : Option Str
  copilotToken : Option CopilotTokenE
  pendingAuth : Option Nat
  pendingVerification : Option VerificationResponseE
deriving DecidableEq

/-- Outcome of re-invoking the stored provider exchange `pendingAuth({type:
"oauth"})` inside `checkDeviceFlowAuth`: either it resolves with a token
string (possibly empty, i.e. falsy), or it rejects with an error message. -/
inductive ProviderPollResultE where
  | token (t : Str)
  | errorMsg (msg : Str)
deriving DecidableEq

/-- The short-circuit guard at the top of `checkDeviceFlowAuth` (line 189)
and `initiateDeviceFlow` (line 115): `githubToken && copilotToken &&
isTokenValid()`. -/
def authShortCircuit (st : AuthStateE) (now : Int) : Bool :=
  st.githubToken.isSome && st.copilotToken.isSome && isTokenValid st.copilotToken now

/-- The `checkDeviceFlowAuth` poll of src/services/auth-service.ts
(lines 187-241).  `provider` is the outcome of re-awaiting the stored
exchange; `refreshResult` is the outcome of the awaited
`refreshCopilotToken()` call on the success path (`some` = the new service
credential, `none` = the exchange threw; the throw is swallowed by the
function's own `catch`, which logs and returns `false` — the message of a
refresh failure, `Failed to get Copilot token: ...` or `GitHub token is
required for refresh`, reaches that `catch` after `pendingAuth` was already
cleared, so every refusal branch there leaves the same state).  Error
classification in the `catch` is by substring, in source order:
`authorization_pending` first, then `expired` / `code_expired`. -/
def checkDeviceFlowAuth (st : AuthStateE) (now : Int)
    (provider : ProviderPollResultE) (refreshResult : Option CopilotTokenE) :
    Bool × AuthStateE :=
  if authShortCircuit st now then (true, st)
  else
    match st.pendingAuth with
    | none => (false, st)
    | some _ =>
      match provider with
      | ProviderPollResultE.token t =>
        if t ≠ [] then
          let st1 := { st with githubToken := some t, pendingAuth := none,
                               pendingVerification := none }
          match refreshResult with
          | some ct => (true, { st1 with copilotToken := some ct })
          | none => (false, st1)
        else (false, st)
      | ProviderPollResultE.errorMsg msg =>
        if jsIncludes msg ("authorization_pending".toList) then (false, st)
        else if jsIncludes msg ("expired".toList) || jsIncludes msg ("code_expired".toList) then
          (false, { st with pendingAuth := none, pendingVerification := none })
        else (false, st)

/-! ### Model mapper (src/utils/model-mapper.ts, table in src/config/index.ts) -/

/-- The `CLAUDE_MODEL_MAPPINGS` table of src/config/index.ts (lines 44-63),
as an association list in object-literal insertion order (the order
`Object.entries` iterates string keys). -/
def CLAUDE_MODEL_MAPPINGS : List (Str × Str) :=
  [("claude-opus-4-5-20250514".toList, "claude-opus-4.5".toList),
   ("claude-opus-4.5".toList, "claude-opus-4.5".toList),
   ("opus".toList, "claude-opus-4.5".toList),
   ("claude-sonnet-4-5-20250514".toList, "claude-sonnet-4.5".toList),
   ("claude-sonnet-4.5".toList, "claude-sonnet-4.5".toList),
   ("claude-sonnet-4-20250514".toList, "claude-sonnet-4.5".toList),
   ("claude-sonnet-4".toList, "claude-sonnet-4.5".toList),
   ("sonnet".toList, "claude-sonnet-4.5".toList),
   ("claude-haiku-4-5-20250514".toList, "claude-haiku-4.5".toList),
   ("claude-haiku-4.5".toList, "claude-haiku-4.5".toList),
   ("claude-3-5-haiku-20241022".toList, "claude-haiku-4.5".toList),
   ("claude-3.5-haiku".toList, "claude-haiku-4.5".toList),
   ("haiku".toList, "claude-haiku-4.5".toList)]

/-- Property access `CLAUDE_MODEL_MAPPINGS[claudeModel]` (line 16 of
src/utils/model-mapper.ts): exact-key lookup. -/
def lookupExact (m : Str) : Option Str :=
  (CLAUDE_MODEL_MAPPINGS.find? (fun p => p.1 == m)).map (·.2)

/-- The partial-match loop of `mapClaudeModelToCopilot` (lines 22-26):
first entry, in insertion order, with `claudeModel.startsWith(key) ||
key.startsWith(claudeModel)`. -/
def partialMatchValue (m : Str) : Option Str :=
  (CLAUDE_MODEL_MAPPINGS.find?
    (fun p => p.1.isPrefixOf m || m.isPrefixOf p.1)).map (·.2)

/-- The fallback model of line 29 of src/utils/model-mapper.ts. -/
def defaultCopilotModel : Str := "claude-opus-4.5".toList

/-- The `mapClaudeModelToCopilot` resolver of src/utils/model-mapper.ts
(lines 14-30).  The `if (mapped)` truthiness test means an exact hit with an
empty-string value would fall through to the partial-match loop; the actual
table has no empty values, so this branch is vacuous, but it is kept to
mirror the source. -/
def mapClaudeModelToCopilot (m : Str) : Str :=
  match lookupExact m with
  | some v => if v = [] then (partialMatchValue m).getD defaultCopilotModel else v
  | none => (partialMatchValue m).getD defaultCopilotModel

/-! ### Protocol translator (src/services/anthropic-service.ts) -/

/-- A block of an Anthropic content array: a text block (`{type: 'text',
text}`) or a block of any other type (which `extractTextContent` filters
out). -/
inductive ContentBlockE where
  | text (text : Str)
  | other (type : Str)
deriving DecidableEq

/-- The Anthropic `usage` record. -/
structure AnthropicUsageE where
  input_tokens : Nat
  output_tokens : Nat
deriving DecidableEq

/-- The `AnthropicMessageResponse` shape produced by the translator
(`type: 'message'` and `role: 'assistant'` are constants in the source and
are omitted). -/
structure AnthropicMessageResponseE where
  id : Str
  content : List ContentBlockE
  model : Str
  stop_reason : Option Str
  stop_sequence : Option Str
  usage : AnthropicUsageE
deriving DecidableEq

/-- The argument of `extractTextContent` (lines 400-414): a plain string, an
array of content blocks, or any other value (which returns `''`). -/
inductive AnthContentE where
  | str (s : Str)
  | blocks (bs : List ContentBlockE)
  | other
deriving DecidableEq

/-- The `extractTextContent` helper of src/services/anthropic-service.ts
(lines 400-414): a plain string is returned as is; an array keeps the
`type === 'text'` blocks and joins their `text` fields with `'\n'`; any
other value yields `''`. -/
def extractTextContent : AnthContentE → Str
  | AnthContentE.str s => s
  | AnthContentE.other => []
  | AnthContentE.blocks bs =>
      List.intercalate ['\n']
        (bs.filterMap fun b =>
          match b with
          | ContentBlockE.text s => some s
          | ContentBlockE.other _ => none)

/-- One choice of the legacy `CopilotCompletionResponse` shape
(src/types/github.ts). -/
structure CopilotCompletionChoiceE where
  text : Str
  finish_reason : Option Str
deriving DecidableEq

/-- Usage counters of the legacy completions shape. -/
structure CopilotUsageE where
  prompt_tokens : Nat
  completion_tokens : Nat
deriving DecidableEq

/-- The legacy `CopilotCompletionResponse` shape (src/types/github.ts). -/
structure CopilotCompletionResponseE where
  id : Str
  choices : List CopilotCompletionChoiceE
  usage : Option CopilotUsageE
deriving DecidableEq

/-- The `convertCopilotToAnthropicResponse` translator of
src/services/anthropic-service.ts (lines 423-466): joins all choice texts
with `''`, emits one trimmed text block unless the joined text is empty,
maps `finish_reason` `length` to `max_tokens`, `stop` to `stop_sequence`,
anything else to `end_turn`, and defaults absent usage counters to zero.
The `uuidv4()` used when `copilotResponse.id` is falsy is passed in as
`uuid`. -/
def convertCopilotToAnthropicResponse (resp : CopilotCompletionResponseE)
    (model : Str) (uuid : Str) : AnthropicMessageResponseE :=
  let text := (resp.choices.map (·.text)).flatten
  let content : List ContentBlockE :=
    if text = [] then [] else [ContentBlockE.text (jsTrim text)]
  let finishReason := (resp.choices.head?).bind (·.finish_reason)
  let stopReason :=
    if finishReason = some ("length".toList) then "max_tokens".toList
    else if finishReason = some ("stop".toList) then "stop_sequence".toList
    else "end_turn".toList
  { id := "msg_".toList ++ (if resp.id = [] then uuid else resp.id),
    content := content,
    model := model,
    stop_reason := some stopReason,
    stop_sequence := none,
    usage := { input_tokens := (resp.usage.map (·.prompt_tokens)).getD 0,
               output_tokens := (resp.usage.map (·.completion_tokens)).getD 0 } }

/-- The `message` object of an OpenAI chat choice as the source reads it:
`content` may be absent. -/
structure OpenAIMessageE where
  content : Option Str
deriving DecidableEq

/-- One choice of the OpenAI chat-completions shape as the source reads it:
`message` and `finish_reason` may each be absent. -/
structure OpenAIChoiceE where
  message : Option OpenAIMessageE
  finish_reason : Option Str
deriving DecidableEq

/-- Usage counters of the OpenAI chat shape; each may be absent. -/
structure OpenAIUsageE where
  prompt_tokens : Option Nat
  completion_tokens : Option Nat
deriving DecidableEq

/-- The untyped `data` record that `convertOpenAIToAnthropicResponse`
receives: `choices` and `usage` may each be absent. -/
structure OpenAIChatDataE where
  choices : Option (List OpenAIChoiceE)
  usage : Option OpenAIUsageE
deriving DecidableEq

/-- The `convertOpenAIToAnthropicResponse` translator of
src/services/anthropic-service.ts (lines 564-587), the converter on the
active chat path.  Every `|| <default>` of the source becomes a `getD` /
`jsOrElse`.  Line 580 computes the stop reason as
`finish_reason === 'stop' ? 'end_turn' : (finish_reason as ...) || 'end_turn'`,
so a present, non-empty `finish_reason` other than `'stop'` (for example
`'length'`) is passed through unchanged.  The processed `uuidv4()` string of
line 575 is passed in as `uuid`. -/
def convertOpenAIToAnthropicResponse (data : OpenAIChatDataE)
    (model : Str) (uuid : Str) : AnthropicMessageResponseE :=
  let choices := data.choices.getD []
  let firstChoice := choices.head?
  let content := ((firstChoice.bind (·.message)).bind (·.content)).getD []
  let finishReason := firstChoice.bind (·.finish_reason)
  { id := "msg_".toList ++ uuid,
    content := [ContentBlockE.text content],
    model := model,
    stop_reason := some (if finishReason = some ("stop".toList)
                         then "end_turn".toList
                         else jsOrElse finishReason ("end_turn".toList)),
    stop_sequence := none,
    usage := { input_tokens := ((data.usage.bind (·.prompt_tokens)).getD 0),
               output_tokens := ((data.usage.bind (·.completion_tokens)).getD 0) } }

/-! ### Request validation: POST /v1/messages (src/routes/anthropic.ts) -/

/-- A JSON primitive as far as the `max_tokens` and `content` checks care:
a number, a string, or any other non-null value. -/
inductive JsPrimE where
  | num (n : Int)
  | str (s : Str)
  | obj
deriving DecidableEq

/-- One element of the inbound `messages` array; `role` may be absent and
`content` may be absent or `null` (both modelled as `none`). -/
structure InMessageE where
  role : Option Str
  content : Option JsPrimE
deriving DecidableEq

/-- The inbound Anthropic message request as destructured by the route
handler (line 388).  `messages := none` models an absent, `null` or
non-array `messages` value, all of which fail the same
`!messages || !Array.isArray(messages)` check. -/
structure AnthropicMessageRequestE where
  messages : Option (List InMessageE)
  model : Option Str
  max_tokens : Option JsPrimE
  stream : Bool
deriving DecidableEq

/-- The `messages` check of lines 391-397: absent, non-array, or empty. -/
def messagesMissing : Option (List InMessageE) → Bool
  | none => true
  | some l => l.isEmpty

/-- The `model` check of lines 399-405: `!model`, so absent or the empty
(falsy) string. -/
def modelMissing : Option Str → Bool
  | none => true
  | some m => m.isEmpty

/-- The `max_tokens` check of lines 407-413:
`!max_tokens || typeof max_tokens !== 'number'`.  Absent values, the falsy
number `0`, and non-number values fail; every non-zero number — including a
negative one — passes. -/
def maxTokensInvalid : Option JsPrimE → Bool
  | none => true
  | some (JsPrimE.num n) => n == 0
  | some (JsPrimE.str _) => true
  | some JsPrimE.obj => true

/-- The per-message role check of line 417:
`!msg.role || !['user', 'assistant'].includes(msg.role)`. -/
def validRole (role : Option Str) : Bool :=
  role == some ("user".toList) || role == some ("assistant".toList)

/-- The per-message loop of lines 416-431: the first offending message
determines the error (role checked before content; content fails only on
`undefined`/`null`). -/
def validateMessages : List InMessageE → Option Str
  | [] => none
  | m :: rest =>
    if !(validRole m.role) then
      some ("messages: each message must have a valid role (user or assistant)".toList)
    else if m.content.isNone then
      some ("messages: each message must have content".toList)
    else validateMessages rest

/-- Result of the POST /v1/messages handler body, up to the point where the
backend is (or is not) reached: a 400 `invalid_request_error`, a 401
`authentication_error`, or the call into
`makeAnthropicCompletionRequest` / `handleAnthropicStreaming`. -/
inductive PostOutcomeE where
  | invalidRequest (message : Str)
  | authenticationError (message : Str)
  | backendInvoked (stream : Bool)
deriving DecidableEq

/-- The validation-and-dispatch body of `anthropicRoutes.post('/messages')`
(src/routes/anthropic.ts lines 383-467), with the stored Copilot token
passed explicitly.  Checks run in source order: `messages`, `model`,
`max_tokens`, then the per-message loop, then `getCopilotToken()`; only
after all of them is the backend invoked. -/
def postMessages (req : AnthropicMessageRequestE)
    (copilotToken : Option CopilotTokenE) : PostOutcomeE :=
  if messagesMissing req.messages then
    PostOutcomeE.invalidRequest ("messages: field required".toList)
  else if modelMissing req.model then
    PostOutcomeE.invalidRequest ("model: field required".toList)
  else if maxTokensInvalid req.max_tokens then
    PostOutcomeE.invalidRequest ("max_tokens: field required and must be a number".toList)
  else
    match validateMessages (req.messages.getD []) with
    | some e => PostOutcomeE.invalidRequest e
    | none =>
      match copilotToken with
      | none => PostOutcomeE.authenticationError ("GitHub Copilot token not available".toList)
      | some _ => PostOutcomeE.backendInvoked req.stream

/-! ### Simulated streaming (handleAnthropicStreaming, src/routes/anthropic.ts) -/

/-- The chunk size of line 547: `const chunkSize = 20`. -/
def chunkSize : Nat := 20

/-- Structural helper for the chunking loop of lines 548-565: `fuel` bounds
the number of iterations.  Each step consumes at least one character, so any
`fuel ≥ cs.length` computes the full chunk list. -/
def chunkTextAux : Nat → Str → List Str
  | 0, _ => []
  | _ + 1, [] => []
  | fuel + 1, c :: cs =>
      ((c :: cs).take chunkSize) :: chunkTextAux fuel ((c :: cs).drop chunkSize)

/-- The chunking loop `for (let i = 0; i < text.length; i += chunkSize)
{ text.slice(i, i + chunkSize) ... }` of lines 548-565, as the list of
successive slices. -/
def chunkText (cs : Str) : List Str := chunkTextAux cs.length cs

/-- The typed server-sent events the streaming handler writes, in the shape
of src/types/anthropic.ts as used in lines 503-611: `message_start` carries
the initial usage counts, `content_block_delta` a text slice,
`message_delta` the final stop reason and output-token count. -/
inductive SSEEvent where
  | messageStart (input_tokens output_tokens : Nat)
  | contentBlockStart
  | contentBlockDelta (text : Str)
  | contentBlockStop
  | messageDelta (stop_reason : Str) (output_tokens : Nat)
  | messageStop
  | errorEvent (message : Str)
deriving DecidableEq

/-- The text the streaming handler streams (lines 541-544): the `text`
fields of the response's `type === 'text'` blocks joined with `''`. -/
def streamText (response : AnthropicMessageResponseE) : Str :=
  (response.content.filterMap fun b =>
    match b with
    | ContentBlockE.text s => some s
    | ContentBlockE.other _ => none).flatten

/-- The event sequence written by `handleAnthropicStreaming`
(src/routes/anthropic.ts lines 481-613).  `backend` is the outcome of the
awaited `makeAnthropicCompletionRequest` call.  The source writes
`message_start` (with zero usage counts) and `content_block_start` *before*
awaiting the backend, so a backend failure lands in the `catch` after those
two events and appends a single `error` event.  On success the text is
sliced into `chunkSize`-character deltas; the running
`outputTokens += Math.ceil(chunk.length / 4)` estimate is used in
`message_delta` only when `response.usage?.output_tokens` is falsy, and the
stop reason is `response.stop_reason || 'end_turn'`. -/
def handleAnthropicStreaming
    (backend : Except Str AnthropicMessageResponseE) : List SSEEvent :=
  let pre := [SSEEvent.messageStart 0 0, SSEEvent.contentBlockStart]
  match backend with
  | Except.error msg => pre ++ [SSEEvent.errorEvent msg]
  | Except.ok response =>
    let text := streamText response
    let chunks := chunkText text
    let outputTokens := (chunks.map (fun c => (c.length + 3) / 4)).sum
    pre ++ chunks.map SSEEvent.contentBlockDelta
        ++ [SSEEvent.contentBlockStop,
            SSEEvent.messageDelta (jsOrElse response.stop_reason ("end_turn".toList))
              (if response.usage.output_tokens = 0 then outputTokens
               else response.usage.output_tokens),
            SSEEvent.messageStop]

/-! ### Concrete sample values used by witnesses and counterexamples -/

/-- A stored service credential with a non-empty token, far from expiry. -/
def validTokenCredential : CopilotTokenE :=
  { token := "tok_live".toList, expires_at := 2000000000, refresh_in := 1500,
    chat_enabled := true, sku := "copilot_for_business".toList,
    telemetry := "enabled".toList, tracking_id := "t0".toList }

/-- A stored service credential whose token string is empty but whose
expiry lies far in the future. -/
def emptyTokenCredential : CopilotTokenE :=
  { token := [], expires_at := 1000000, refresh_in := 1500,
    chat_enabled := true, sku := "copilot".toList,
    telemetry := "enabled".toList, tracking_id := "t1".toList }

/-- A second empty-token credential, with a different expiry. -/
def emptyTokenCredential2 : CopilotTokenE :=
  { token := [], expires_at := 9999999999, refresh_in := 0,
    chat_enabled := false, sku := [], telemetry := [], tracking_id := [] }

/-- An authenticator state with an outstanding device-flow authorization
and no credentials yet. -/
def pendingStateExample : AuthStateE :=
  { githubToken := none, copilotToken := none, pendingAuth := some 1,
    pendingVerification := some
      { verification_uri := "https://github.com/login/device".toList,
        user_code := "ABCD-1234".toList, expires_in := 900, interval := 5,
        status := "pending_verification".toList } }

/-- An inbound request whose `max_tokens` is the negative number `-1`:
it has no positive `max_tokens`, yet passes every check of the handler. -/
def negativeMaxTokensRequest : AnthropicMessageRequestE :=
  { messages := some [{ role := some ("user".toList),
                        content := some (JsPrimE.str ("hi".toList)) }],
    model := some ("claude-opus-4.5".toList),
    max_tokens := some (JsPrimE.num (-1)),
    stream := false }

/-- An inbound request that is valid except for a missing `model` field. -/
def missingModelRequest : AnthropicMessageRequestE :=
  { messages := some [{ role := some ("user".toList),
                        content := some (JsPrimE.str ("hello".toList)) }],
    model := none,
    max_tokens := some (JsPrimE.num 256),
    stream := false }

/-- An OpenAI chat response whose first choice finished with
`finish_reason: 'length'`. -/
def lengthFinishData : OpenAIChatDataE :=
  { choices := some [{ message := some { content := some ("truncated output".toList) },
                       finish_reason := some ("length".toList) }],
    usage := some { prompt_tokens := some 10, completion_tokens := some 20 } }

/-- A legacy Copilot completions response whose first choice finished with
`finish_reason: 'length'`. -/
def lengthFinishCopilotResponse : CopilotCompletionResponseE :=
  { id := "cmpl-1".toList,
    choices := [{ text := "truncated output".toList,
                  finish_reason := some ("length".toList) }],
    usage := none }

/-- A legacy Copilot completions response whose text carries leading
whitespace. -/
def whitespaceCopilotResponse : CopilotCompletionResponseE :=
  { id := "cmpl-2".toList,
    choices := [{ text := " x".toList, finish_reason := some ("stop".toList) }],
    usage := none }

/-- A fully computed backend response with a 26-character text, used to
exercise the streaming chunk loop. -/
def streamedResponseExample : AnthropicMessageResponseE :=
  { id := "msg_example".toList,
    content := [ContentBlockE.text ("abcdefghijklmnopqrstuvwxyz".toList)],
    model := "claude-opus-4.5".toList,
    stop_reason := some ("end_turn".toList),
    stop_sequence := none,
    usage := { input_tokens := 3, output_tokens := 7 } }

/-! ### Chunking lemmas -/

theorem chunkTextAux_flatten :
    ∀ (fuel : Nat) (cs : Str), cs.length ≤ fuel →
      (chunkTextAux fuel cs).flatten = cs := by
  intro fuel
  induction fuel with
  | zero =>
    intro cs h
    have hnil : cs = [] := List.eq_nil_of_length_eq_zero (Nat.le_zero.mp h)
    subst hnil
    rfl
  | succ n ih =>
    intro cs h
    match cs with
    | [] => rfl
    | c :: cs =>
      simp only [chunkTextAux, List.flatten_cons]
      rw [ih ((c :: cs).drop chunkSize) (by simp [chunkSize] at h ⊢; omega)]
      exact List.take_append_drop _ _

theorem chunkTextAux_length :
    ∀ (fuel : Nat) (cs : Str), cs.length ≤ fuel →
      (chunkTextAux fuel cs).length = (cs.length + (chunkSize - 1)) / chunkSize := by
  intro fuel
  induction fuel with
  | zero =>
    intro cs h
    have hnil : cs = [] := List.eq_nil_of_length_eq_zero (Nat.le_zero.mp h)
    subst hnil
    rfl
  | succ n ih =>
    intro cs h
    match cs with
    | [] => rfl
    | c :: cs =>
      simp only [chunkTextAux, List.length_cons]
      rw [ih ((c :: cs).drop chunkSize) (by simp [chunkSize] at h ⊢; omega)]
      simp only [List.length_drop, List.length_cons, chunkSize]
      omega

theorem chunkTextAux_mem_le :
    ∀ (fuel : Nat) (cs chunk : Str), chunk ∈ chunkTextAux fuel cs →
      chunk.length ≤ chunkSize := by
  intro fuel
  induction fuel with
  | zero => intro cs chunk h; simp [chunkTextAux] at h
  | succ n ih =>
    intro cs chunk h
    match cs with
    | [] => simp [chunkTextAux] at h
    | c :: cs =>
      simp only [chunkTextAux, List.mem_cons] at h
      rcases h with h | h
      · subst h; simp [List.length_take]
      · exact ih _ _ h

theorem chunkText_flatten (cs : Str) : (chunkText cs).flatten = cs :=
  chunkTextAux_flatten _ _ le_rfl

theorem chunkText_length (cs : Str) :
    (chunkText cs).length = (cs.length + (chunkSize - 1)) / chunkSize :=
  chunkTextAux_length _ _ le_rfl

theorem chunkText_mem_le {cs chunk : Str} (h : chunk ∈ chunkText cs) :
    chunk.length ≤ chunkSize :=
  chunkTextAux_mem_le _ _ _ h

/-! ### Claim theorems -/

/-- C1: for every fully computed backend response, the streaming handler
emits, in order, one `message_start` event with zero usage counts, one
`content_block_start` event, exactly `ceil(L / 20)` `content_block_delta`
events (where `L` is the length of the response text) whose texts are
successive slices of at most 20 characters concatenating back to the
response text exactly, one `content_block_stop` event, one `message_delta`
event carrying the final stop reason and output-token count, and one
`message_stop` event. -/
theorem handleAnthropicStreaming_success_events (response : AnthropicMessageResponseE) :
    handleAnthropicStreaming (Except.ok response) =
        [SSEEvent.messageStart 0 0, SSEEvent.contentBlockStart]
          ++ (chunkText (streamText response)).map SSEEvent.contentBlockDelta
          ++ [SSEEvent.contentBlockStop,
              SSEEvent.messageDelta (jsOrElse response.stop_reason ("end_turn".toList))
                (if response.usage.output_tokens = 0
                 then ((chunkText (streamText response)).map (fun c => (c.length + 3) / 4)).sum
                 else response.usage.output_tokens),
              SSEEvent.messageStop]
      ∧ (chunkText (streamText response)).length
          = ((streamText response).length + (chunkSize - 1)) / chunkSize
      ∧ (chunkText (streamText response)).flatten = streamText response
      ∧ ∀ c ∈ chunkText (streamText response), c.length ≤ chunkSize :=
  ⟨rfl, chunkText_length _, chunkText_flatten _, fun _ hc => chunkText_mem_le hc⟩

/-- C1 witness: on a concrete 26-character response text the handler's
first delta is the first 20 characters, and the chunk-bound clause of
`handleAnthropicStreaming_success_events` applies to it. -/
theorem handleAnthropicStreaming_success_events_witness :
    ("abcdefghijklmnopqrst".toList : Str).length ≤ chunkSize :=
  (handleAnthropicStreaming_success_events streamedResponseExample).2.2.2
    ("abcdefghijklmnopqrst".toList) (by decide)

/-- C4 counterexample: when the backend call fails, the emitted sequence is
`message_start`, `content_block_start`, `error` — not a single `error`
event, because the first two events were already written before the backend
was awaited. -/
theorem handleAnthropicStreaming_error_counterexample :
    handleAnthropicStreaming (Except.error ("Copilot API error: 500".toList)) =
        [SSEEvent.messageStart 0 0, SSEEvent.contentBlockStart,
         SSEEvent.errorEvent ("Copilot API error: 500".toList)]
      ∧ handleAnthropicStreaming (Except.error ("Copilot API error: 500".toList)) ≠
        [SSEEvent.errorEvent ("Copilot API error: 500".toList)] := by
  exact ⟨rfl, by decide⟩

/-- C4 amended: for every streaming request in which the backend chat call
fails, the handler emits the already-written `message_start` and
`content_block_start` events followed by a single `error` event and then
terminates; no `content_block_delta` event is ever emitted and nothing
follows the error event. -/
theorem handleAnthropicStreaming_error_events (msg : Str) :
    handleAnthropicStreaming (Except.error msg) =
      [SSEEvent.messageStart 0 0, SSEEvent.contentBlockStart, SSEEvent.errorEvent msg] :=
  rfl

/-- C5 counterexample: a stored service credential whose token string is
empty, with expiry far in the future (`now = 0 < expiresAt - 5`), still
fails the validity check — so "true iff a ServiceCredential is stored and
now < expiresAt - margin" does not hold as stated. -/
theorem isTokenValid_claim_counterexample :
    (0 : Int) < emptyTokenCredential.expires_at - 5
      ∧ isTokenValid (some emptyTokenCredential) 0 = false := by
  exact ⟨by decide, by decide⟩

/-- C5 amended: the validity check returns true iff a ServiceCredential
with a non-empty token string is stored and `now < expiresAt - 5`; in
particular it returns false when no credential is stored and false whenever
`now ≥ expiresAt - 5`. -/
theorem isTokenValid_iff (copilotToken : Option CopilotTokenE) (now : Int) :
    isTokenValid copilotToken now = true ↔
      ∃ t, copilotToken = some t ∧ t.token ≠ [] ∧ now < t.expires_at - 5 := by
  cases copilotToken with
  | none => simp [isTokenValid]
  | some t =>
    by_cases ht : t.token = []
    · simp [isTokenValid, ht]
    · simp [isTokenValid, ht]

/-- C5 witness: a concrete stored credential with a non-empty token and a
far-future expiry is reported valid at time 1000. -/
theorem isTokenValid_iff_witness : isTokenValid (some validTokenCredential) 1000 = true :=
  (isTokenValid_iff (some validTokenCredential) 1000).mpr
    ⟨validTokenCredential, rfl, by decide, by decide⟩

/-- C10: a stored ServiceCredential whose token string is empty is treated
as absent — the validity check returns false for every current time,
however far in the future `expiresAt` lies. -/
theorem isTokenValid_emptyToken_absent (t : CopilotTokenE) (now : Int)
    (h : t.token = []) : isTokenValid (some t) now = false := by
  simp [isTokenValid, h]

/-- C10 witness: a concrete empty-token credential with `expiresAt` in the
year 2286 is reported invalid at time 0. -/
theorem isTokenValid_emptyToken_absent_witness :
    isTokenValid (some emptyTokenCredential2) 0 = false :=
  isTokenValid_emptyToken_absent emptyTokenCredential2 0 rfl

/-- C6: the resolver returns the exact-match table entry when one exists,
otherwise the (first) table entry where either string is a textual prefix
of the other, otherwise the fixed default backend model; it is a total
function (never raises).  In particular `claude-sonnet-4-5-20250514`
resolves to the sonnet backend id and `totally-unknown-model` to the fixed
default. -/
theorem mapClaudeModelToCopilot_resolution (m : Str) :
    mapClaudeModelToCopilot m =
        (match lookupExact m with
         | some v => v
         | none => (partialMatchValue m).getD defaultCopilotModel)
      ∧ mapClaudeModelToCopilot ("claude-sonnet-4-5-20250514".toList)
          = ("claude-sonnet-4.5".toList : Str)
      ∧ mapClaudeModelToCopilot ("totally-unknown-model".toList) = defaultCopilotModel := by
  refine ⟨?_, by decide, by decide⟩
  cases h : lookupExact m with
  | none => simp [mapClaudeModelToCopilot, h]
  | some v =>
    have hv : v ≠ [] := by
      have hfind : ∃ p, CLAUDE_MODEL_MAPPINGS.find? (fun p => p.1 == m) = some p ∧ p.2 = v := by
        unfold lookupExact at h
        rcases hf : CLAUDE_MODEL_MAPPINGS.find? (fun p => p.1 == m) with _ | p
        · rw [hf] at h; simp at h
        · rw [hf] at h; simp at h; exact ⟨p, hf, h⟩
      rcases hfind with ⟨p, hp, hpv⟩
      have hmem : p ∈ CLAUDE_MODEL_MAPPINGS := List.mem_of_find?_eq_some hp
      have hall : ∀ q ∈ CLAUDE_MODEL_MAPPINGS, q.2 ≠ ([] : Str) := by decide
      exact hpv ▸ hall p hmem
    simp [mapClaudeModelToCopilot, h, hv]

/-- C7: when a PendingAuthorization is outstanding, the short-circuit
"already authenticated" guard does not fire (so the stored provider
exchange is actually re-invoked), and the provider rejects with an
`authorization_pending` message, `poll` returns false and leaves the whole
state — including the stored provider handle — unchanged. -/
theorem checkDeviceFlowAuth_pending_noop (st : AuthStateE) (now : Int) (msg : Str)
    (refreshResult : Option CopilotTokenE)
    (h1 : st.pendingAuth.isSome = true)
    (h2 : authShortCircuit st now = false)
    (h3 : jsIncludes msg ("authorization_pending".toList) = true) :
    checkDeviceFlowAuth st now (ProviderPollResultE.errorMsg msg) refreshResult
      = (false, st) := by
  rcases Option.isSome_iff_exists.mp h1 with ⟨a, ha⟩
  simp at h3
  simp [checkDeviceFlowAuth, h2, ha, h3]

/-- C7 witness: in a concrete state with an outstanding authorization and
no credentials, a literal `authorization_pending` provider report makes
`poll` return false with the state unchanged. -/
theorem checkDeviceFlowAuth_pending_noop_witness :
    checkDeviceFlowAuth pendingStateExample 0
        (ProviderPollResultE.errorMsg ("authorization_pending".toList)) none
      = (false, pendingStateExample) :=
  checkDeviceFlowAuth_pending_noop pendingStateExample 0
    ("authorization_pending".toList) none (by decide) (by decide) (by decide)

/-- C8 counterexample: with an outstanding authorization, a provider
exchange that yields a token, and a failing ServiceCredential refresh,
`poll` stores the user token and clears the PendingAuthorization but
returns false — the refresh failure does change the reported outcome,
contradicting the claim that `poll` reports true regardless. -/
theorem checkDeviceFlowAuth_refreshFailure_counterexample :
    (checkDeviceFlowAuth pendingStateExample 0
        (ProviderPollResultE.token ("gho_example".toList)) none).1 = false
      ∧ (checkDeviceFlowAuth pendingStateExample 0
          (ProviderPollResultE.token ("gho_example".toList)) none).2.githubToken
          = some ("gho_example".toList)
      ∧ (checkDeviceFlowAuth pendingStateExample 0
          (ProviderPollResultE.token ("gho_example".toList)) none).2.pendingAuth
          = none := by
  exact ⟨by decide, by decide, by decide⟩

/-- C8 amended: when the outstanding provider exchange yields a (non-falsy)
token, `poll` stores it as the user credential and clears the
PendingAuthorization in every case; the awaited ServiceCredential refresh
is caught rather than raised to the poller, but it gates the reported
outcome: on refresh success `poll` returns true and stores the new service
credential, on refresh failure `poll` returns false. -/
theorem checkDeviceFlowAuth_token_outcome (st : AuthStateE) (now : Int)
    (t : Str) (a : Nat) (ct : CopilotTokenE)
    (h1 : st.pendingAuth = some a)
    (h2 : authShortCircuit st now = false)
    (h3 : t ≠ []) :
    checkDeviceFlowAuth st now (ProviderPollResultE.token t) (some ct)
        = (true, { st with githubToken := some t, copilotToken := some ct,
                           pendingAuth := none, pendingVerification := none })
      ∧ checkDeviceFlowAuth st now (ProviderPollResultE.token t) none
        = (false, { st with githubToken := some t,
                            pendingAuth := none, pendingVerification := none }) := by
  constructor <;> simp [checkDeviceFlowAuth, h1, h2, h3]

/-- C8 witness: in a concrete pending state, a provider token together with
a successful refresh makes `poll` return true with both credentials stored
and the pending authorization cleared. -/
theorem checkDeviceFlowAuth_token_outcome_witness :
    checkDeviceFlowAuth pendingStateExample 0
        (ProviderPollResultE.token ("gho_w".toList)) (some validTokenCredential)
      = (true, { pendingStateExample with
                   githubToken := some ("gho_w".toList),
                   copilotToken := some validTokenCredential,
                   pendingAuth := none, pendingVerification := none }) :=
  (checkDeviceFlowAuth_token_outcome pendingStateExample 0 ("gho_w".toList) 1
    validTokenCredential rfl (by decide) (by decide)).1

/-- C3: on the active chat path, `convertOpenAIToAnthropicResponse` passes
a `finish_reason` of `'length'` through unchanged as the stop reason
instead of mapping it to `max_tokens` — contradicting both the
`length → max-length` mapping and the inline type annotation at line 580 of
src/services/anthropic-service.ts, which admits only `end_turn`,
`max_tokens`, `stop_sequence`, `tool_use` or `null`; the sibling
`convertCopilotToAnthropicResponse` converter maps the same indicator to
`max_tokens`. -/
theorem convertOpenAI_length_passthrough :
    (convertOpenAIToAnthropicResponse lengthFinishData
        ("claude-opus-4.5".toList) ("u1".toList)).stop_reason
        = some ("length".toList)
      ∧ (convertCopilotToAnthropicResponse lengthFinishCopilotResponse
          ("claude-opus-4.5".toList) ("u1".toList)).stop_reason
          = some ("max_tokens".toList)
      ∧ ("length".toList : Str) ≠ ("max_tokens".toList : Str) := by
  exact ⟨by decide, by decide, by decide⟩

/-- C9 counterexample: on the legacy Copilot-completions path the response
text ` x` (leading space) comes back from the outbound content block as `x`
— `convertCopilotToAnthropicResponse` trims the text before inserting it,
so the round trip is not character-for-character. -/
theorem copilotResponse_trim_counterexample :
    extractTextContent (AnthContentE.blocks
        (convertCopilotToAnthropicResponse whitespaceCopilotResponse
          ("claude-opus-4.5".toList) ("u2".toList)).content)
        = ("x".toList : Str)
      ∧ (" x".toList : Str) ≠ ("x".toList : Str) := by
  exact ⟨by decide, by decide⟩

/-- C9 amended: extraction of a plain string is the identity, and on the
active OpenAI-format path the backend's returned text appears
character-for-character in the outbound content block, so extracting it
back yields exactly the original text; on the legacy Copilot-completions
path the text is trimmed of leading/trailing whitespace first, so the exact
round trip holds there only for text without such whitespace. -/
theorem textContent_roundTrip (s : Str) (fr : Option Str)
    (u : Option OpenAIUsageE) (m uuid : Str) :
    extractTextContent (AnthContentE.str s) = s
      ∧ extractTextContent (AnthContentE.blocks
          (convertOpenAIToAnthropicResponse
            { choices := some [{ message := some { content := some s },
                                 finish_reason := fr }],
              usage := u }
            m uuid).content) = s := by
  constructor
  · rfl
  · show List.intercalate ['\n'] [s] = s
    simp [List.intercalate]

/-- C2 counterexample: an inbound request whose `max_tokens` is the
negative number `-1` has no positive `max_tokens`, yet it passes every
check of the handler and the backend is invoked — the
`!max_tokens || typeof max_tokens !== 'number'` check only rejects absent,
zero or non-number values. -/
theorem postMessages_negativeMaxTokens :
    negativeMaxTokensRequest.max_tokens = some (JsPrimE.num (-1))
      ∧ ¬ ((0 : Int) < -1)
      ∧ postMessages negativeMaxTokensRequest (some validTokenCredential)
          = PostOutcomeE.backendInvoked false := by
  exact ⟨rfl, by decide, by decide⟩

/-- C2 amended: for every inbound chat request whose `messages` field is
absent, non-array or empty, whose `model` field is absent or empty, or
whose `max_tokens` is absent, zero or not a number, the handler returns a
400 `invalid_request_error` and the backend chat endpoint is never called
(negative numeric `max_tokens` values, however, are accepted). -/
theorem postMessages_validationError (req : AnthropicMessageRequestE)
    (tok : Option CopilotTokenE)
    (h : messagesMissing req.messages = true ∨ modelMissing req.model = true
          ∨ maxTokensInvalid req.max_tokens = true) :
    ∃ e, postMessages req tok = PostOutcomeE.invalidRequest e := by
  unfold postMessages
  split_ifs with h1 h2 h3
  · exact ⟨_, rfl⟩
  · exact ⟨_, rfl⟩
  · exact ⟨_, rfl⟩
  · rcases h with h | h | h
    · exact absurd h (by simp [h1])
    · exact absurd h (by simp [h2])
    · exact absurd h (by simp [h3])

/-- C2 witness: a concrete request missing only its `model` field is
rejected with a validation error before any backend call. -/
theorem postMessages_validationError_witness :
    ∃ e, postMessages missingModelRequest none = PostOutcomeE.invalidRequest e :=
  postMessages_validationError missingModelRequest none (Or.inr (Or.inl (by decide)))

end CopilotProxy
